import Mathlib

/-!
Shallow embedding of the hypr-ai-automator daemon core.

Strings are modelled as `List Char` (built from literals via `String.data`).
External effects (subprocesses, sockets, the Gemini transport, json parsing)
are modelled as explicit parameters or as an environment record of oracles,
so that every definition is an executable Lean function translated from the
Python source in `src/`.
-/

namespace Hypr

/-- Model of a Python value stored in an action's `params` dict.  Only the
value shapes the dispatcher's handlers consult (strings, booleans, integers)
are represented. -/
inductive PVal where
  | s (v : List Char)
  | b (v : Bool)
  | i (v : Int)
deriving DecidableEq

/-- Model of the `params` dict of an action: an association list from key to
value, looked up by key equality like a Python dict. -/
abbrev Params := List (List Char × PVal)

/-- Embeds Python `params.get(key, default)`: the stored value when the key
is present, the default otherwise. -/
def Params.getD (ps : Params) (k : List Char) (d : PVal) : PVal :=
  match ps.find? (fun kv => kv.fst == k) with
  | some kv => kv.snd
  | none => d

/-- Embeds Python truthiness for the values a handler tests with `if not x`:
a string is truthy iff nonempty, a boolean is itself, an integer is truthy
iff nonzero. -/
def PVal.truthy : PVal → Bool
  | .s v => !v.isEmpty
  | .b v => v
  | .i v => v != 0

/-- Embeds the `ActionSpec` dict `{type, params}` handed to
`ActionDispatcher.execute`. -/
structure ActionSpec where
  type : List Char
  params : Params
deriving DecidableEq

/-- Embeds the result dict `ActionDispatcher.execute` returns: `success`
plus an `output` key on the success path or an `error` key on the failure
path. -/
structure ExecResult where
  success : Bool
  output : Option (List Char)
  error : Option (List Char)
deriving DecidableEq

/-- Model of one file on disk: its `stat().st_size` and its text content
(kept as separate fields, since the handler consults them separately). -/
structure SimFile where
  size : Nat
  content : List Char
deriving DecidableEq

/-- Model of the mutable world the handlers touch: the filesystem as an
association list from absolute path to file, and the list of shell command
strings handed to a subprocess spawn (`create_subprocess_shell` or
`Popen`), in spawn order. -/
structure World where
  fs : List (List Char × SimFile)
  spawned : List (List Char)
deriving DecidableEq

/-- Looks a path up in the modelled filesystem. -/
def lookupFile (fs : List (List Char × SimFile)) (p : List Char) : Option SimFile :=
  match fs.find? (fun kv => kv.fst == p) with
  | some kv => some kv.snd
  | none => none

/-- Embeds `open(filepath, "w")` followed by a full write: the file at the
path is replaced (or created) with the given content. -/
def setFile (fs : List (List Char × SimFile)) (p : List Char) (f : SimFile) :
    List (List Char × SimFile) :=
  (p, f) :: fs.filter (fun kv => kv.fst != p)

/-- Environment of external collaborators of the dispatcher: the user's home
directory string `str(Path.home())`, the terminal emulator `_detect_terminal`
finds, an oracle giving a waited shell command's (stdout, stderr), an oracle
modelling the nine handlers that only drive external tools (ydotool, grim,
pactl, brightnessctl, ps/pkill, hyprctl), and the `datetime.now().isoformat()`
timestamp. -/
structure Env where
  home : List Char
  term : List Char
  shellOut : List Char → List Char × List Char
  otherHandler : List Char → Params → World → (Except (List Char) (List Char)) × World
  now : List Char

/-- Embeds `Path(path).expanduser()` for the forms this codebase exercises:
a lone tilde and a home-relative `~/...` path; the `~user` form is not
modelled.  Any other path is returned unchanged. -/
def expanduser (home path : List Char) : List Char :=
  if path = ['~'] then home
  else if (['~', '/'] : List Char).isPrefixOf path then home ++ path.drop 1
  else path

/-- Embeds Python `needle in hay` on strings: contiguous substring test. -/
def isSubstring (needle : List Char) : List Char → Bool
  | [] => needle.isEmpty
  | c :: rest => needle.isPrefixOf (c :: rest) || isSubstring needle rest

/-- The deny-list of `_handle_execute`, verbatim from the source. -/
def dangerous_patterns : List (List Char) :=
  ["rm -rf /".data, "mkfs".data, "dd if=".data]

/-- Embeds `ActionDispatcher._handle_execute`.  A raised exception is
modelled as `Except.error` carrying the exception message; the world records
any spawned shell command.  A truthy non-string `command` value would raise
a TypeError at the substring test in Python, modelled as the corresponding
error. -/
def handle_execute (env : Env) (w : World) (ps : Params) :
    (Except (List Char) (List Char)) × World :=
  let cv := Params.getD ps "command".data (.s [])
  let waitv := Params.getD ps "wait".data (.b true)
  let termv := Params.getD ps "terminal".data (.b false)
  if !cv.truthy then (.error "No command specified".data, w)
  else
    match cv with
    | .s command0 =>
      if dangerous_patterns.any (fun p => isSubstring p command0) then
        (.error "Dangerous command blocked for safety".data, w)
      else
        let command :=
          if termv.truthy then env.term ++ " -e ".data ++ command0 else command0
        if waitv.truthy then
          let out := env.shellOut command
          let outText :=
            out.fst.take 1000 ++
              (if out.snd.isEmpty then [] else "\nErrors: ".data ++ out.snd.take 500)
          (.ok (if outText.isEmpty then "Command executed successfully".data else outText),
           { w with spawned := w.spawned ++ [command] })
        else
          (.ok "Command launched in background".data,
           { w with spawned := w.spawned ++ [command] })
    | _ => (.error "TypeError: argument is not iterable".data, w)

/-- Embeds `ActionDispatcher._handle_file_write`: tilde-expand the path,
reject a path that fails the home-directory string-prefix test, otherwise
create parent directories (a no-op in this model) and write the content.
A truthy non-string `path` or a non-string `content` raises in Python,
modelled as an error without a filesystem change. -/
def handle_file_write (env : Env) (w : World) (ps : Params) :
    (Except (List Char) (List Char)) × World :=
  let pv := Params.getD ps "path".data (.s [])
  let cv := Params.getD ps "content".data (.s [])
  if !pv.truthy then (.error "No path specified".data, w)
  else
    match pv with
    | .s path =>
      let filepath := expanduser env.home path
      if !(env.home.isPrefixOf filepath) then
        (.error "Can only write to files in home directory".data, w)
      else
        match cv with
        | .s content =>
          (.ok ("Wrote ".data ++ (Nat.repr content.length).data ++ " bytes to ".data ++ filepath),
           { w with fs := setFile w.fs filepath { size := content.length, content := content } })
        | _ => (.error "TypeError".data, w)
    | _ => (.error "TypeError".data, w)

/-- Embeds `ActionDispatcher._handle_file_read`: tilde-expand the path,
reject a missing file, reject a file whose on-disk size exceeds 1MB, and
otherwise return the content truncated to its first 5000 characters.  Note
the source performs no home-directory check here. -/
def handle_file_read (env : Env) (w : World) (ps : Params) :
    (Except (List Char) (List Char)) × World :=
  let pv := Params.getD ps "path".data (.s [])
  if !pv.truthy then (.error "No path specified".data, w)
  else
    match pv with
    | .s path =>
      let filepath := expanduser env.home path
      match lookupFile w.fs filepath with
      | none => (.error ("File not found: ".data ++ filepath), w)
      | some f =>
        if f.size > 1024 * 1024 then (.error "File too large (max 1MB)".data, w)
        else (.ok (f.content.take 5000), w)
    | _ => (.error "TypeError".data, w)

/-- The keys of the `self.handlers` registry, verbatim from the constructor
of `ActionDispatcher`. -/
def handlerKeys : List (List Char) :=
  ["keyboard".data, "mouse_move".data, "mouse_click".data, "execute".data,
   "hyprland_dispatch".data, "focus_window".data, "screenshot".data,
   "file_write".data, "file_read".data, "audio_control".data,
   "brightness".data, "process_control".data]

/-- Dispatch to the kind-specific handler.  The three handlers whose logic
the claims exercise are embedded above; the remaining nine only drive
external tools and are modelled by the environment oracle. -/
def runHandler (env : Env) (w : World) (t : List Char) (ps : Params) :
    (Except (List Char) (List Char)) × World :=
  if t = "execute".data then handle_execute env w ps
  else if t = "file_write".data then handle_file_write env w ps
  else if t = "file_read".data then handle_file_read env w ps
  else env.otherHandler t ps w

/-- Embeds `ActionDispatcher.execute`: an unregistered type yields a failed
result dict; otherwise the handler runs and any exception it raises is
caught and wrapped as a failed result, so the call returns a result for
every input. -/
def ActionDispatcher.execute (env : Env) (w : World) (a : ActionSpec) :
    ExecResult × World :=
  if !(handlerKeys.contains a.type) then
    ({ success := false, output := none,
       error := some ("Unknown action type: ".data ++ a.type) }, w)
  else
    match runHandler env w a.type a.params with
    | (.ok out, w2) => ({ success := true, output := some out, error := none }, w2)
    | (.error e, w2) => ({ success := false, output := none, error := some e }, w2)

/-- Embeds one entry of the `results` list `daemon._execute_ai_response`
accumulates: the action, its success flag, and `result.get("output", "")`. -/
structure ActionOutcome where
  action : ActionSpec
  success : Bool
  output : List Char
deriving DecidableEq

/-- Modelled from the spec: `ContextStore.AddCommand(command, output,
success)` appends one CommandLogEntry to the durable command log
(`context_manager.py` is not part of the repository snapshot under `src/`;
the spec describes AddCommand as an append-only audit record). -/
structure CommandLogEntry where
  command : ActionSpec
  output : List Char
  success : Bool
deriving DecidableEq

/-- Embeds the result dict `daemon._execute_ai_response` returns. -/
structure QueryResult where
  success : Bool
  explanation : List Char
  actions : List ActionOutcome
  timestamp : List Char
deriving DecidableEq

/-- Embeds the response dict of `GeminiClient.process_query` as the daemon
consumes it: `response.get("explanation", "")`, `response.get("actions", [])`
and the `error` key present only on the degraded paths. -/
structure GeminiResponse where
  explanation : List Char
  actions : List ActionSpec
  error : Option (List Char)
deriving DecidableEq

/-- Embeds the per-action loop of `daemon._execute_ai_response`: each action
is executed through the dispatcher, one outcome is appended per action in
input order, and one command-log entry is appended per action (the 0.1s
inter-action sleep has no observable effect in this model). -/
def runActions (env : Env) :
    World → List CommandLogEntry → List ActionSpec →
      List ActionOutcome × World × List CommandLogEntry
  | w, log, [] => ([], w, log)
  | w, log, a :: rest =>
    let r := ActionDispatcher.execute env w a
    let outcome : ActionOutcome :=
      { action := a, success := r.fst.success, output := (r.fst.output).getD [] }
    let entry : CommandLogEntry :=
      { command := a, output := (r.fst.output).getD [], success := r.fst.success }
    let next := runActions env r.snd (log ++ [entry]) rest
    (outcome :: next.fst, next.snd.fst, next.snd.snd)

/-- Embeds `daemon._execute_ai_response`: run every action of the response,
then return `success = all(...)` over the per-action outcomes together with
the response's explanation and the timestamp. -/
def executeAiResponse (env : Env) (w : World) (log : List CommandLogEntry)
    (resp : GeminiResponse) : QueryResult × World × List CommandLogEntry :=
  let r := runActions env w log resp.actions
  ({ success := r.fst.all (fun x => x.success),
     explanation := resp.explanation,
     actions := r.fst,
     timestamp := env.now }, r.snd.fst, r.snd.snd)

/-- Embeds Python `str.strip()` on both ends (whitespace set approximated by
`Char.isWhitespace`). -/
def trimChars (t : List Char) : List Char :=
  ((t.dropWhile Char.isWhitespace).reverse.dropWhile Char.isWhitespace).reverse

/-- Embeds the fence-stripping in `GeminiClient.process_query`: strip the
raw text, drop a leading "```json" then a leading "```", drop a trailing
"```", and strip again before json parsing. -/
def stripFences (t0 : List Char) : List Char :=
  let t := trimChars t0
  let t1 := if ("```json".data).isPrefixOf t then t.drop 7 else t
  let t2 := if ("```".data).isPrefixOf t1 then t1.drop 3 else t1
  let t3 := if ("```".data).isSuffixOf t2 then t2.take (t2.length - 3) else t2
  trimChars t3

/-- The `.get`-projection of a successfully parsed model reply dict. -/
structure ParsedDict where
  explanation : List Char
  actions : List ActionSpec
deriving DecidableEq

/-- Embeds the error handling of `GeminiClient.process_query`: the transport
(client construction, generate_content, response access) either yields the
raw reply text or fails with an exception message; `json.loads` on the
fence-stripped text either yields a parsed dict or fails with a decode
error.  Each failure is caught and turned into the degraded dict the source
builds, with the exact explanation prefixes of the source. -/
def geminiProcessQuery (transport : Except (List Char) (List Char))
    (jsonLoads : List Char → Except (List Char) ParsedDict) : GeminiResponse :=
  match transport with
  | .error e =>
    { explanation := "Error communicating with AI: ".data ++ e,
      actions := [], error := some e }
  | .ok text =>
    match jsonLoads (stripFences text) with
    | .error e =>
      { explanation := "Error: Could not parse AI response".data,
        actions := [], error := some e }
    | .ok d => { explanation := d.explanation, actions := d.actions, error := none }

/-- Embeds the fragment of `daemon.process_user_query` that invokes the
model client and executes the returned action list (the model call and
`_execute_ai_response`), with the transport and json parsing as
parameters. -/
def processQueryPipeline (env : Env) (w : World) (log : List CommandLogEntry)
    (transport : Except (List Char) (List Char))
    (jsonLoads : List Char → Except (List Char) ParsedDict) :
    QueryResult × World × List CommandLogEntry :=
  executeAiResponse env w log (geminiProcessQuery transport jsonLoads)

/-- Embeds `SystemMonitor.get_state`: `current_state` starts as the empty
dict, modelled as `none`; when it is still empty the call synchronously
samples once (`gather` is the value `_gather_system_state` would produce,
always a dict with every top-level key, hence truthy) and stores it; the
stored sample and the possibly-updated state are returned. -/
def SystemMonitor.get_state {α : Type} (gather : α) (current : Option α) :
    α × Option α :=
  match current with
  | some s => (s, some s)
  | none => (gather, some gather)

/-- The `event_map` of `HyprlandConnector._handle_event`, verbatim. -/
def event_map : List (List Char × List Char) :=
  [("workspace".data, "workspace_changed".data),
   ("focusedmon".data, "monitor_changed".data),
   ("activewindow".data, "window_focused".data),
   ("openwindow".data, "window_opened".data),
   ("closewindow".data, "window_closed".data),
   ("movewindow".data, "window_moved".data),
   ("activewindowv2".data, "window_activated".data),
   ("fullscreen".data, "fullscreen_changed".data),
   ("monitoradded".data, "monitor_added".data),
   ("monitorremoved".data, "monitor_removed".data)]

/-- Embeds `event_map.get(event, event)`: vendor event names map to semantic
kinds, unrecognized names pass through unchanged. -/
def mapEventName (e : List Char) : List Char :=
  match event_map.find? (fun kv => kv.fst == e) with
  | some kv => kv.snd
  | none => e

/-- One invocation of a registered observer callback: which callback (by
registration index), the semantic event name and payload it received, and
whether the callback returned normally (`ok = false` means it raised and the
connector logged the error). -/
structure Delivery where
  callbackIdx : Nat
  event : List Char
  payload : List Char
  ok : Bool
deriving DecidableEq

/-- Embeds `HyprlandConnector._handle_event` for `n` registered callbacks:
every callback is invoked for the event in registration order, inside a
per-callback try/except, so a raising callback (described by the `raises`
oracle) never prevents the remaining invocations. -/
def handle_event (n : Nat) (raises : Nat → List Char → List Char → Bool)
    (ev data : List Char) : List Delivery :=
  (List.range n).map (fun i =>
    { callbackIdx := i, event := mapEventName ev, payload := data,
      ok := !(raises i (mapEventName ev) data) })

/-- Embeds the per-line dispatch loop of `start_event_listener` over a
sequence of already-parsed `(event, payload)` records, in arrival order. -/
def processEvents (n : Nat) (raises : Nat → List Char → List Char → Bool) :
    List (List Char × List Char) → List Delivery
  | [] => []
  | p :: rest => handle_event n raises p.fst p.snd ++ processEvents n raises rest

/-- Embeds the line parsing of `start_event_listener`: a line containing
">>" is split at its first occurrence into event name and payload
(`line.split(">>", 1)`); a line without the marker is ignored. -/
def splitEventLine : List Char → Option (List Char × List Char)
  | [] => none
  | '>' :: '>' :: rest => some ([], rest)
  | c :: rest =>
    match splitEventLine rest with
    | some pq => some (c :: pq.fst, pq.snd)
    | none => none

/-- Embeds the listener's handling of a sequence of complete socket lines:
parse each line, deliver each parsed event to every registered callback. -/
def listenerDeliveries (n : Nat) (raises : Nat → List Char → List Char → Bool)
    (lines : List (List Char)) : List Delivery :=
  processEvents n raises (lines.filterMap splitEventLine)

/-- The sub-sequence of invocations a single callback received, as
(event, payload) pairs in delivery order. -/
def deliveriesTo (i : Nat) (ds : List Delivery) : List (List Char × List Char) :=
  (ds.filter (fun d => d.callbackIdx == i)).map (fun d => (d.event, d.payload))

/-- Embeds an inbound websocket message as `_handle_websocket` consumes it:
`data.get("type")` plus the `query` and `screenshot` fields read (with their
defaults) on the query branch. -/
structure InMsg where
  type : Option (List Char)
  query : List Char
  screenshot : Bool
deriving DecidableEq

/-- Embeds the json messages `_handle_websocket` sends to the client. -/
inductive OutMsg where
  | connected
  | processing (message : List Char)
  | result (r : QueryResult)
  | pong
  | state (s : List Char)
deriving DecidableEq

/-- Environment of the websocket handler: the daemon collaborator behind the
query branch and the serialized system state behind the get_state branch. -/
structure WsEnv where
  processQuery : List Char → Bool → QueryResult
  systemState : List Char

/-- The three message kinds `_handle_websocket` recognizes. -/
def recognizedWsTypes : List (List Char) :=
  ["query".data, "ping".data, "get_state".data]

/-- Embeds one iteration of the receive loop of `_handle_websocket`: the
replies sent for one inbound message.  A message whose type matches no
branch falls through the if/elif chain: no reply is sent and the loop
continues. -/
def handleWsMessage (env : WsEnv) (m : InMsg) : List OutMsg :=
  match m.type with
  | some t =>
    if t = "query".data then
      [.processing "Processing your request...".data,
       .result (env.processQuery m.query m.screenshot)]
    else if t = "ping".data then [.pong]
    else if t = "get_state".data then [.state env.systemState]
    else []
  | none => []

/-- Embeds the receive loop of `_handle_websocket` over the sequence of
messages a client sends before disconnecting: the concatenation of the
replies to each message, in order. -/
def wsSessionReplies (env : WsEnv) : List InMsg → List OutMsg
  | [] => []
  | m :: rest => handleWsMessage env m ++ wsSessionReplies env rest

/-- The confinement test `_handle_file_write` performs, verbatim from the
source: a string-prefix test of the home directory against the
tilde-expanded (but otherwise unresolved) path. -/
def passesHomeCheck (home path : List Char) : Bool :=
  home.isPrefixOf (expanduser home path)

/-- Follows the claim's words, not the source: the expanded path truly lies
inside the home directory iff it equals the home directory or sits strictly
below it (path-component-wise). -/
def trulyUnderHome (home path : List Char) : Bool :=
  (expanduser home path == home) ||
    ((home ++ ['/']).isPrefixOf (expanduser home path))

/-- A concrete environment for witness evaluations: home `/home/user`, the
external oracles returning fixed neutral values. -/
def defaultEnv : Env :=
  { home := "/home/user".data, term := "kitty".data,
    shellOut := fun _ => ([], []),
    otherHandler := fun _ _ w => (.ok [], w),
    now := "2026-01-01T00:00:00".data }

/-- A world with no files and no spawned processes. -/
def emptyWorld : World := { fs := [], spawned := [] }

/-- A world whose filesystem holds a small `/etc/passwd`. -/
def etcPasswdWorld : World :=
  { fs := [("/etc/passwd".data,
            { size := 31, content := "root:x:0:0:root:/root:/bin/bash".data })],
    spawned := [] }

/-- The file-read action on `/etc/passwd`. -/
def readEtcPasswd : ActionSpec :=
  { type := "file_read".data, params := [("path".data, .s "/etc/passwd".data)] }

/-- A concrete websocket environment for witness evaluations. -/
def defaultWsEnv : WsEnv :=
  { processQuery := fun _ _ =>
      { success := true, explanation := [], actions := [], timestamp := [] },
    systemState := [] }

/-! Helper lemmas shared by several claim proofs. -/

theorem isPrefixOf_append_self (l s : List Char) : l.isPrefixOf (l ++ s) = true := by
  induction l with
  | nil => cases s <;> rfl
  | cons c cs ih => simp [List.isPrefixOf, ih]

theorem isPrefixOf_append_cons_ne (l : List Char) (a b : Char) (s t : List Char)
    (hab : a ≠ b) : ((l ++ a :: s).isPrefixOf (l ++ b :: t)) = false := by
  induction l with
  | nil => simp [List.isPrefixOf, hab]
  | cons c cs ih => simp [List.isPrefixOf, ih]

theorem append_cons_beq_self (l : List Char) (c : Char) (s : List Char) :
    (l ++ c :: s == l) = false := by
  rw [beq_eq_false_iff_ne]
  simp

theorem isEmpty_append_cons (l : List Char) (c : Char) (s : List Char) :
    (l ++ c :: s).isEmpty = false := by
  cases l <;> rfl

theorem head?_append_cons_ne (l : List Char) (c : Char) (s : List Char)
    (hl : l.head? ≠ some '~') (hc : c ≠ '~') :
    (l ++ c :: s).head? ≠ some '~' := by
  cases l with
  | nil =>
    intro h
    exact hc (by simpa using h)
  | cons a as => simpa using hl

theorem expanduser_of_head_ne_tilde (home p : List Char) (hp : p.head? ≠ some '~') :
    expanduser home p = p := by
  have h1 : ¬(p = ['~']) := by
    intro h
    subst h
    exact hp rfl
  have h2 : (['~', '/'] : List Char).isPrefixOf p = false := by
    cases p with
    | nil => rfl
    | cons c cs =>
      have hc : c ≠ '~' := by
        intro h
        subst h
        exact hp rfl
      simp [List.isPrefixOf]
      intro h
      exact absurd h.symm hc
  unfold expanduser
  rw [if_neg h1, h2]
  simp

theorem lookupFile_setFile (fs : List (List Char × SimFile)) (p : List Char) (f : SimFile) :
    lookupFile (setFile fs p f) p = some f := by
  unfold lookupFile setFile
  rw [List.find?_cons_of_pos]
  simp

/-! Reduction lemmas for the dispatcher on the embedded handlers. -/

theorem execute_on_execute_action (env : Env) (w : World) (ps : Params) :
    ActionDispatcher.execute env w { type := "execute".data, params := ps } =
      match handle_execute env w ps with
      | (.ok out, w2) => ({ success := true, output := some out, error := none }, w2)
      | (.error e, w2) => ({ success := false, output := none, error := some e }, w2) := rfl

theorem execute_on_file_write_action (env : Env) (w : World) (ps : Params) :
    ActionDispatcher.execute env w { type := "file_write".data, params := ps } =
      match handle_file_write env w ps with
      | (.ok out, w2) => ({ success := true, output := some out, error := none }, w2)
      | (.error e, w2) => ({ success := false, output := none, error := some e }, w2) := rfl

theorem execute_on_file_read_action (env : Env) (w : World) (ps : Params) :
    ActionDispatcher.execute env w { type := "file_read".data, params := ps } =
      match handle_file_read env w ps with
      | (.ok out, w2) => ({ success := true, output := some out, error := none }, w2)
      | (.error e, w2) => ({ success := false, output := none, error := some e }, w2) := rfl

theorem handle_execute_blocks_dangerous (env : Env) (w : World) (ps : Params)
    (cmd : List Char)
    (hc : Params.getD ps "command".data (.s []) = .s cmd)
    (hd : dangerous_patterns.any (fun p => isSubstring p cmd) = true) :
    handle_execute env w ps = (.error "Dangerous command blocked for safety".data, w) := by
  have hne : cmd.isEmpty = false := by
    cases cmd with
    | nil => revert hd; decide
    | cons c cs => rfl
  unfold handle_execute
  rw [hc]
  simp [PVal.truthy, hne, hd]

theorem handle_file_write_rejects_outside (env : Env) (w : World) (ps : Params)
    (path : List Char)
    (hp : Params.getD ps "path".data (.s []) = .s path)
    (hne : path ≠ [])
    (hout : passesHomeCheck env.home path = false) :
    handle_file_write env w ps =
      (.error "Can only write to files in home directory".data, w) := by
  have h1 : path.isEmpty = false := by
    cases path with
    | nil => exact absurd rfl hne
    | cons c cs => rfl
  unfold handle_file_write
  rw [hp]
  unfold passesHomeCheck at hout
  simp [PVal.truthy, h1, hout]

theorem handle_file_write_writes (env : Env) (w : World) (ps : Params)
    (path content : List Char)
    (hp : Params.getD ps "path".data (.s []) = .s path)
    (hc : Params.getD ps "content".data (.s []) = .s content)
    (hne : path ≠ [])
    (hin : passesHomeCheck env.home path = true) :
    handle_file_write env w ps =
      (.ok ("Wrote ".data ++ (Nat.repr content.length).data ++ " bytes to ".data ++
            expanduser env.home path),
       { w with fs := setFile w.fs (expanduser env.home path)
                        { size := content.length, content := content } }) := by
  have h1 : path.isEmpty = false := by
    cases path with
    | nil => exact absurd rfl hne
    | cons c cs => rfl
  unfold handle_file_write
  rw [hp, hc]
  unfold passesHomeCheck at hin
  simp [PVal.truthy, h1, hin]

theorem handle_file_read_found (env : Env) (w : World) (ps : Params)
    (path : List Char) (f : SimFile)
    (hp : Params.getD ps "path".data (.s []) = .s path)
    (hne : path ≠ [])
    (hf : lookupFile w.fs (expanduser env.home path) = some f) :
    handle_file_read env w ps =
      (if f.size > 1024 * 1024 then
        ((.error "File too large (max 1MB)".data : Except (List Char) (List Char)), w)
       else (.ok (f.content.take 5000), w)) := by
  have h1 : path.isEmpty = false := by
    cases path with
    | nil => exact absurd rfl hne
    | cons c cs => rfl
  unfold handle_file_read
  rw [hp]
  simp [PVal.truthy, h1, hf]

/-! Claim theorems. -/

/-- Claim C1, counterexample: a file-read action on `/etc/passwd` — a path
outside the user's home directory — is not rejected with PathOutsideHome;
the handler reads the file and returns its content as a successful
ActionResult, so file-read is not confined like file-write. -/
theorem file_read_etc_passwd_succeeds :
    (ActionDispatcher.execute defaultEnv etcPasswdWorld readEtcPasswd).fst =
      { success := true,
        output := some ("root:x:0:0:root:/root:/bin/bash".data.take 5000),
        error := none } := rfl

/-- Claim C1 (amended): for every file-write action whose parameter path,
after home-relative expansion, fails the home-directory prefix test, the
handler raises PathOutsideHome (RuntimeError "Can only write to files in
home directory"), surfaced as a failed ActionResult, and no file is
written; the file-read handler, however, performs no home-directory
confinement: any existing file within the 1MB size cap is read and its
content returned (truncated to 5000 characters) regardless of where its
path resolves, `/etc/passwd` included. -/
theorem file_write_confined_file_read_not :
    (∀ (env : Env) (w : World) (ps : Params) (path : List Char),
      Params.getD ps "path".data (.s []) = .s path → path ≠ [] →
      passesHomeCheck env.home path = false →
      ActionDispatcher.execute env w { type := "file_write".data, params := ps } =
        ({ success := false, output := none,
           error := some "Can only write to files in home directory".data }, w)) ∧
    (∀ (env : Env) (w : World) (ps : Params) (path : List Char) (f : SimFile),
      Params.getD ps "path".data (.s []) = .s path → path ≠ [] →
      lookupFile w.fs (expanduser env.home path) = some f →
      f.size ≤ 1024 * 1024 →
      ActionDispatcher.execute env w { type := "file_read".data, params := ps } =
        ({ success := true, output := some (f.content.take 5000), error := none }, w)) := by
  constructor
  · intro env w ps path hp hne hout
    rw [execute_on_file_write_action,
        handle_file_write_rejects_outside env w ps path hp hne hout]
  · intro env w ps path f hp hne hf hsize
    rw [execute_on_file_read_action, handle_file_read_found env w ps path f hp hne hf,
        if_neg (by omega)]

/-- Witness for the amended C1 theorem at concrete inputs: writing to
`/etc/passwd` is rejected with the confinement error and the filesystem is
unchanged, while reading `/etc/passwd` succeeds and returns its content. -/
theorem file_write_confined_file_read_not_witness :
    ActionDispatcher.execute defaultEnv emptyWorld
      { type := "file_write".data,
        params := [("path".data, .s "/etc/passwd".data), ("content".data, .s "x".data)] } =
      ({ success := false, output := none,
         error := some "Can only write to files in home directory".data }, emptyWorld) ∧
    ActionDispatcher.execute defaultEnv etcPasswdWorld readEtcPasswd =
      ({ success := true,
         output := some ("root:x:0:0:root:/root:/bin/bash".data.take 5000),
         error := none }, etcPasswdWorld) := by
  constructor
  · exact file_write_confined_file_read_not.left defaultEnv emptyWorld
      [("path".data, .s "/etc/passwd".data), ("content".data, .s "x".data)]
      "/etc/passwd".data rfl (by decide) (by decide)
  · exact file_write_confined_file_read_not.right defaultEnv etcPasswdWorld
      [("path".data, .s "/etc/passwd".data)] "/etc/passwd".data
      { size := 31, content := "root:x:0:0:root:/root:/bin/bash".data }
      rfl (by decide) rfl (by decide)

/-- Claim C3: every execute action whose command string contains a
deny-listed destructive substring is rejected by the dispatcher as a failed
ActionResult carrying the DangerousCommandBlocked message, and the world is
returned unchanged — in particular no shell command is appended to the
spawn list, i.e. no subprocess is spawned. -/
theorem dangerous_command_blocked (env : Env) (w : World) (ps : Params)
    (cmd : List Char)
    (hc : Params.getD ps "command".data (.s []) = .s cmd)
    (hd : dangerous_patterns.any (fun p => isSubstring p cmd) = true) :
    ActionDispatcher.execute env w { type := "execute".data, params := ps } =
      ({ success := false, output := none,
         error := some "Dangerous command blocked for safety".data }, w) ∧
    (ActionDispatcher.execute env w { type := "execute".data, params := ps }).snd.spawned
      = w.spawned := by
  have h := handle_execute_blocks_dangerous env w ps cmd hc hd
  constructor
  · rw [execute_on_execute_action, h]
  · rw [execute_on_execute_action, h]

/-- Witness for C3 at a concrete raw-disk-write command. -/
theorem dangerous_command_blocked_witness :
    ActionDispatcher.execute defaultEnv emptyWorld
      { type := "execute".data,
        params := [("command".data, .s "dd if=/dev/zero of=/dev/sda".data)] } =
      ({ success := false, output := none,
         error := some "Dangerous command blocked for safety".data }, emptyWorld) ∧
    (ActionDispatcher.execute defaultEnv emptyWorld
      { type := "execute".data,
        params := [("command".data, .s "dd if=/dev/zero of=/dev/sda".data)] }).snd.spawned
      = emptyWorld.spawned :=
  dangerous_command_blocked defaultEnv emptyWorld
    [("command".data, .s "dd if=/dev/zero of=/dev/sda".data)]
    "dd if=/dev/zero of=/dev/sda".data rfl (by decide)

/-- Claim C5: an ActionSpec whose type is not in the handler registry
yields a failed result identifying the unknown action kind, with the world
untouched; and for a registered type, a handler failure is caught and
wrapped as a failed result carrying the handler's error — the Execute call
returns a result dict in both cases rather than letting the failure
escape. -/
theorem unknown_action_kind_failed_result :
    (∀ (env : Env) (w : World) (a : ActionSpec),
      handlerKeys.contains a.type = false →
      ActionDispatcher.execute env w a =
        ({ success := false, output := none,
           error := some ("Unknown action type: ".data ++ a.type) }, w)) ∧
    (∀ (env : Env) (w : World) (a : ActionSpec) (e : List Char) (w2 : World),
      handlerKeys.contains a.type = true →
      runHandler env w a.type a.params = (.error e, w2) →
      ActionDispatcher.execute env w a =
        ({ success := false, output := none, error := some e }, w2)) := by
  constructor
  · intro env w a hk
    unfold ActionDispatcher.execute
    rw [hk]
    rfl
  · intro env w a e w2 hk hr
    unfold ActionDispatcher.execute
    rw [hk, hr]
    rfl

/-- Witness for C5: the type "nonexistent" yields the unknown-action-kind
failure, and a registered handler's raised error (file not found) is
returned as a failed result rather than escaping. -/
theorem unknown_action_kind_failed_result_witness :
    ActionDispatcher.execute defaultEnv emptyWorld
      { type := "nonexistent".data, params := [] } =
      ({ success := false, output := none,
         error := some ("Unknown action type: ".data ++ "nonexistent".data) }, emptyWorld) ∧
    ActionDispatcher.execute defaultEnv emptyWorld
      { type := "file_read".data,
        params := [("path".data, .s "/home/user/missing.txt".data)] } =
      ({ success := false, output := none,
         error := some ("File not found: ".data ++ "/home/user/missing.txt".data) },
       emptyWorld) := by
  constructor
  · exact unknown_action_kind_failed_result.left defaultEnv emptyWorld
      { type := "nonexistent".data, params := [] } (by decide)
  · exact unknown_action_kind_failed_result.right defaultEnv emptyWorld
      { type := "file_read".data,
        params := [("path".data, .s "/home/user/missing.txt".data)] }
      ("File not found: ".data ++ "/home/user/missing.txt".data) emptyWorld
      (by decide) rfl

/-- Claim C6: a file-read action on a file whose on-disk size exceeds the
1MB cap fails with FileTooLarge and returns no content at all; a file
within the size cap is read successfully with its content truncated to the
first 5000 characters — truncation, not rejection. -/
theorem file_read_size_cap_and_truncation :
    (∀ (env : Env) (w : World) (ps : Params) (path : List Char) (f : SimFile),
      Params.getD ps "path".data (.s []) = .s path → path ≠ [] →
      lookupFile w.fs (expanduser env.home path) = some f →
      f.size > 1024 * 1024 →
      ActionDispatcher.execute env w { type := "file_read".data, params := ps } =
        ({ success := false, output := none,
           error := some "File too large (max 1MB)".data }, w)) ∧
    (∀ (env : Env) (w : World) (ps : Params) (path : List Char) (f : SimFile),
      Params.getD ps "path".data (.s []) = .s path → path ≠ [] →
      lookupFile w.fs (expanduser env.home path) = some f →
      f.size ≤ 1024 * 1024 →
      ActionDispatcher.execute env w { type := "file_read".data, params := ps } =
        ({ success := true, output := some (f.content.take 5000), error := none }, w)) := by
  constructor
  · intro env w ps path f hp hne hf hsize
    rw [execute_on_file_read_action, handle_file_read_found env w ps path f hp hne hf,
        if_pos hsize]
  · intro env w ps path f hp hne hf hsize
    rw [execute_on_file_read_action, handle_file_read_found env w ps path f hp hne hf,
        if_neg (by omega)]

/-- Witness for C6: a 2MB file is rejected with FileTooLarge; a 6000
character file inside the cap is returned truncated to its first 5000
characters. -/
theorem file_read_size_cap_and_truncation_witness :
    (ActionDispatcher.execute defaultEnv
      { fs := [("/home/user/big.bin".data, { size := 2097152, content := "x".data })],
        spawned := [] }
      { type := "file_read".data,
        params := [("path".data, .s "/home/user/big.bin".data)] } =
      ({ success := false, output := none,
         error := some "File too large (max 1MB)".data },
       { fs := [("/home/user/big.bin".data, { size := 2097152, content := "x".data })],
         spawned := [] })) ∧
    (ActionDispatcher.execute defaultEnv
      { fs := [("/home/user/long.txt".data,
                { size := 6000, content := List.replicate 6000 'a' })], spawned := [] }
      { type := "file_read".data,
        params := [("path".data, .s "/home/user/long.txt".data)] } =
      ({ success := true, output := some (List.replicate 5000 'a'), error := none },
       { fs := [("/home/user/long.txt".data,
                 { size := 6000, content := List.replicate 6000 'a' })], spawned := [] })) ∧
    (List.replicate 6000 'a').length = 6000 := by
  refine ⟨?_, ?_, List.length_replicate 6000 'a'⟩
  · exact file_read_size_cap_and_truncation.left defaultEnv
      { fs := [("/home/user/big.bin".data, { size := 2097152, content := "x".data })],
        spawned := [] }
      [("path".data, .s "/home/user/big.bin".data)] "/home/user/big.bin".data
      { size := 2097152, content := "x".data } rfl (by decide) rfl (by decide)
  · have h := file_read_size_cap_and_truncation.right defaultEnv
      { fs := [("/home/user/long.txt".data,
                { size := 6000, content := List.replicate 6000 'a' })], spawned := [] }
      [("path".data, .s "/home/user/long.txt".data)] "/home/user/long.txt".data
      { size := 6000, content := List.replicate 6000 'a' } rfl (by decide) rfl (by decide)
    rw [h, List.take_replicate, min_eq_left (by norm_num)]

/-- Claim C10: the home-directory confinement of the file-write handler is
a string-prefix test on the tilde-expanded but otherwise unresolved path,
so for any home directory (not itself tilde-relative) the sibling path
home ++ "2/evil.txt" passes the check although it does not truly resolve
under the home directory, and the handler performs the write there without
raising. -/
theorem home_prefix_check_bypass (env : Env) (w : World)
    (hh : env.home.head? ≠ some '~') :
    passesHomeCheck env.home (env.home ++ "2/evil.txt".data) = true ∧
    trulyUnderHome env.home (env.home ++ "2/evil.txt".data) = false ∧
    (ActionDispatcher.execute env w
      { type := "file_write".data,
        params := [("path".data, .s (env.home ++ "2/evil.txt".data)),
                   ("content".data, .s "pwned".data)] }).fst.success = true ∧
    lookupFile ((ActionDispatcher.execute env w
      { type := "file_write".data,
        params := [("path".data, .s (env.home ++ "2/evil.txt".data)),
                   ("content".data, .s "pwned".data)] }).snd).fs
      (env.home ++ "2/evil.txt".data) =
      some { size := 5, content := "pwned".data } := by
  have hpath : (env.home ++ "2/evil.txt".data).head? ≠ some '~' :=
    head?_append_cons_ne env.home '2' _ hh (by decide)
  have hexp : expanduser env.home (env.home ++ "2/evil.txt".data) =
      env.home ++ "2/evil.txt".data :=
    expanduser_of_head_ne_tilde _ _ hpath
  have hpass : passesHomeCheck env.home (env.home ++ "2/evil.txt".data) = true := by
    unfold passesHomeCheck
    rw [hexp]
    exact isPrefixOf_append_self _ _
  have hne : env.home ++ "2/evil.txt".data ≠ [] := by simp
  have hwrite := handle_file_write_writes env w
    [("path".data, .s (env.home ++ "2/evil.txt".data)),
     ("content".data, .s "pwned".data)]
    (env.home ++ "2/evil.txt".data) "pwned".data rfl rfl hne hpass
  refine ⟨hpass, ?_, ?_, ?_⟩
  · unfold trulyUnderHome
    rw [hexp, append_cons_beq_self,
        isPrefixOf_append_cons_ne env.home '/' '2' [] _ (by decide)]
    rfl
  · rw [execute_on_file_write_action, hwrite]
  · rw [execute_on_file_write_action, hwrite, hexp]
    exact lookupFile_setFile w.fs _ _

/-- Claim C2 (code-bug evaluation): when the model invocation fails in
transport, or when the reply text fails json parsing, the pipeline returns
a well-formed degraded result with the error-describing explanation and an
empty actions list and no failure escapes — but its success flag is `true`,
not `false` as specified: `all(...)` over the empty per-action result list
is vacuously true. -/
theorem degraded_model_result_success_true (env : Env) (w : World)
    (log : List CommandLogEntry) (e pe text : List Char)
    (jsonLoads : List Char → Except (List Char) ParsedDict) :
    ((processQueryPipeline env w log (.error e) jsonLoads).fst.success = true ∧
     (processQueryPipeline env w log (.error e) jsonLoads).fst.actions = [] ∧
     (processQueryPipeline env w log (.error e) jsonLoads).fst.explanation =
       "Error communicating with AI: ".data ++ e) ∧
    ((processQueryPipeline env w log (.ok text) (fun _ => .error pe)).fst.success = true ∧
     (processQueryPipeline env w log (.ok text) (fun _ => .error pe)).fst.actions = [] ∧
     (processQueryPipeline env w log (.ok text) (fun _ => .error pe)).fst.explanation =
       "Error: Could not parse AI response".data) :=
  ⟨⟨rfl, rfl, rfl⟩, ⟨rfl, rfl, rfl⟩⟩

/-- Claim C4: the execution stage returns exactly one ActionResult per
submitted ActionSpec, in input order: the outcome list has the same length
as the action list, and projecting each outcome to its action gives back
the input list itself. -/
theorem execute_ai_response_preserves_actions (env : Env) (w : World)
    (log : List CommandLogEntry) (resp : GeminiResponse) :
    (executeAiResponse env w log resp).fst.actions.length = resp.actions.length ∧
    ((executeAiResponse env w log resp).fst.actions).map (fun o => o.action)
      = resp.actions := by
  have key : ∀ (l : List ActionSpec) (w0 : World) (lg : List CommandLogEntry),
      ((runActions env w0 lg l).fst).map (fun o => o.action) = l := by
    intro l
    induction l with
    | nil => intro w0 lg; rfl
    | cons a rest ih =>
      intro w0 lg
      simp only [runActions]
      simp [ih]
  have hmap : ((executeAiResponse env w log resp).fst.actions).map (fun o => o.action)
      = resp.actions := key resp.actions w log
  refine ⟨?_, hmap⟩
  have hl := congrArg List.length hmap
  simpa using hl

/-- Claim C9: GetState is idempotent between samples — a second call with
no intervening sample returns exactly the value (and leaves exactly the
state) of the first call; and when no sample exists yet, the first call
synchronously performs one sample and returns it. -/
theorem get_state_idempotent {α : Type} (g1 g2 : α) (c : Option α) :
    (SystemMonitor.get_state g2 (SystemMonitor.get_state g1 c).snd).fst
      = (SystemMonitor.get_state g1 c).fst ∧
    (SystemMonitor.get_state g2 (SystemMonitor.get_state g1 c).snd).snd
      = (SystemMonitor.get_state g1 c).snd ∧
    (SystemMonitor.get_state g1 (none : Option α)).fst = g1 := by
  cases c <;> exact ⟨rfl, rfl, rfl⟩

/-- Witness for C10 at the concrete home directory of the default
environment. -/
theorem home_prefix_check_bypass_witness :
    passesHomeCheck defaultEnv.home (defaultEnv.home ++ "2/evil.txt".data) = true ∧
    trulyUnderHome defaultEnv.home (defaultEnv.home ++ "2/evil.txt".data) = false ∧
    (ActionDispatcher.execute defaultEnv emptyWorld
      { type := "file_write".data,
        params := [("path".data, .s (defaultEnv.home ++ "2/evil.txt".data)),
                   ("content".data, .s "pwned".data)] }).fst.success = true ∧
    lookupFile ((ActionDispatcher.execute defaultEnv emptyWorld
      { type := "file_write".data,
        params := [("path".data, .s (defaultEnv.home ++ "2/evil.txt".data)),
                   ("content".data, .s "pwned".data)] }).snd).fs
      (defaultEnv.home ++ "2/evil.txt".data) =
      some { size := 5, content := "pwned".data } :=
  home_prefix_check_bypass defaultEnv emptyWorld (by decide)

theorem range_filter_beq (n i : Nat) (hi : i < n) :
    (List.range n).filter (fun j => j == i) = [i] := by
  induction n with
  | zero => omega
  | succ m ih =>
    rw [List.range_succ, List.filter_append]
    rcases Nat.lt_succ_iff_lt_or_eq.mp hi with h | h
    · rw [ih h]
      have hm : (m == i) = false := by
        rw [beq_eq_false_iff_ne]
        omega
      simp [hm]
    · subst h
      have hnil : (List.range i).filter (fun j => j == i) = [] := by
        rw [List.filter_eq_nil_iff]
        intro a ha hbeq
        have h1 : a < i := List.mem_range.mp ha
        rw [beq_iff_eq] at hbeq
        omega
      rw [hnil]
      simp

theorem handle_event_filter (n : Nat) (raises : Nat → List Char → List Char → Bool)
    (ev data : List Char) (i : Nat) (hi : i < n) :
    (handle_event n raises ev data).filter (fun d => d.callbackIdx == i) =
      [{ callbackIdx := i, event := mapEventName ev, payload := data,
         ok := !(raises i (mapEventName ev) data) }] := by
  unfold handle_event
  rw [List.filter_map]
  have hconv : ((fun d => d.callbackIdx == i) ∘ (fun x =>
      ({ callbackIdx := x, event := mapEventName ev, payload := data,
         ok := !(raises x (mapEventName ev) data) } : Delivery)))
      = (fun j => j == i) := rfl
  rw [hconv, range_filter_beq n i hi]
  rfl

theorem deliveriesTo_append (i : Nat) (x y : List Delivery) :
    deliveriesTo i (x ++ y) = deliveriesTo i x ++ deliveriesTo i y := by
  unfold deliveriesTo
  rw [List.filter_append, List.map_append]

/-- Claim C7: for every sequence of lines arriving on the event socket and
every number of registered observers, each observer receives all parsed
events in source arrival order, whatever the raise behavior of any
observer's callback is: a raising callback neither prevents delivery of the
event to the remaining observers nor terminates the listener before later
events. -/
theorem event_delivery_order_isolated (n : Nat)
    (raises : Nat → List Char → List Char → Bool)
    (lines : List (List Char)) (i : Nat) (hi : i < n) :
    deliveriesTo i (listenerDeliveries n raises lines) =
      (lines.filterMap splitEventLine).map (fun p => (mapEventName p.fst, p.snd)) := by
  unfold listenerDeliveries
  generalize lines.filterMap splitEventLine = evs
  induction evs with
  | nil => rfl
  | cons p rest ih =>
    show deliveriesTo i (handle_event n raises p.fst p.snd ++ processEvents n raises rest)
      = _
    rw [deliveriesTo_append, ih]
    unfold deliveriesTo
    rw [handle_event_filter n raises p.fst p.snd i hi]
    rfl

/-- Witness for C7: two observers, the first of which raises on every
event; over the synthetic socket lines workspace, openwindow, activewindow
the second observer still receives all three events, mapped to their
semantic names, in arrival order. -/
theorem event_delivery_order_isolated_witness :
    deliveriesTo 1 (listenerDeliveries 2 (fun j _ _ => j == 0)
      ["workspace>>2".data, "openwindow>>80e6f280,2,kitty,term".data,
       "activewindow>>firefox,Mozilla Firefox".data]) =
      [("workspace_changed".data, "2".data),
       ("window_opened".data, "80e6f280,2,kitty,term".data),
       ("window_focused".data, "firefox,Mozilla Firefox".data)] := by
  have h := event_delivery_order_isolated 2 (fun j _ _ => j == 0)
    ["workspace>>2".data, "openwindow>>80e6f280,2,kitty,term".data,
     "activewindow>>firefox,Mozilla Firefox".data] 1 (by decide)
  rw [h]
  rfl

/-- Claim C8: an inbound push-channel message whose type is none of the
recognized kinds (query, ping, get_state) produces no reply, and the
receive loop goes on to process the subsequent messages of the connection
exactly as if the unrecognized message had not been sent. -/
theorem unrecognized_ws_message_ignored (env : WsEnv) (t q : List Char) (s : Bool)
    (rest : List InMsg) (ht : t ∉ recognizedWsTypes) :
    handleWsMessage env { type := some t, query := q, screenshot := s } = [] ∧
    wsSessionReplies env ({ type := some t, query := q, screenshot := s } :: rest) =
      wsSessionReplies env rest := by
  have h : t ≠ "query".data ∧ t ≠ "ping".data ∧ t ≠ "get_state".data := by
    simp [recognizedWsTypes] at ht
    exact ht
  have h1 : handleWsMessage env { type := some t, query := q, screenshot := s } = [] := by
    simp [handleWsMessage, h.1, h.2.1, h.2.2]
  refine ⟨h1, ?_⟩
  show handleWsMessage env { type := some t, query := q, screenshot := s } ++
    wsSessionReplies env rest = wsSessionReplies env rest
  rw [h1]
  rfl

/-- Witness for C8: a message of type "bogus" gets no reply, and a
following ping on the same connection is still answered with pong. -/
theorem unrecognized_ws_message_ignored_witness :
    handleWsMessage defaultWsEnv
      { type := some "bogus".data, query := [], screenshot := false } = [] ∧
    wsSessionReplies defaultWsEnv
      [{ type := some "bogus".data, query := [], screenshot := false },
       { type := some "ping".data, query := [], screenshot := false }] =
      wsSessionReplies defaultWsEnv
        [{ type := some "ping".data, query := [], screenshot := false }] ∧
    wsSessionReplies defaultWsEnv
      [{ type := some "ping".data, query := [], screenshot := false }] = [.pong] := by
  have h := unrecognized_ws_message_ignored defaultWsEnv "bogus".data [] false
    [{ type := some "ping".data, query := [], screenshot := false }] (by decide)
  exact ⟨h.1, h.2, rfl⟩

end Hypr
